import Mathlib

/-!
Verification of the Model Element Resolution and Caching Engine of the
SYSMODwithSysMLv2 repository.  The definitions below are a shallow
embedding of the Python module
src/mbse4u-sysmlv2/mbse4u_sysmlv2_api_helpers.py (the complete of the two
near-duplicate helper modules).

Modelling conventions:
- Python/JSON values are the inductive type JValue; Python None and JSON
  null are both JValue.null.
- Python dicts are insertion-ordered association lists; update keeps the
  position of an existing key, a new key is appended.
- The network is a function from URL to Except String Response; a
  Except.error models a raised transport/parse exception, Response carries
  the HTTP status code and the parsed JSON body.
- A raised Python exception is Except.error carrying the exception class
  name; the mutable global ELEMENT_CACHE is threaded explicitly, and
  functions return the state as it is at the moment of return or raise.
- The functools.lru_cache on get_element_fromAPI is modelled as an exact
  memo table keyed by the argument pair; eviction at maxsize=2048 is not
  modelled (all scenarios below stay far below that bound), and, as in
  Python, raised exceptions are not memoized.
- The third component of the result of get_element_fromAPI records
  whether the call issued a network request (session.get).
-/

inductive JValue where
  | null : JValue
  | bool : Bool → JValue
  | num : Int → JValue
  | str : String → JValue
  | arr : List JValue → JValue
  | obj : List (String × JValue) → JValue

mutual

/-- Structural equality of JValues (Python == restricted to the
structurally compared values this module actually handles). -/
def jeq : JValue → JValue → Bool
  | .null, .null => true
  | .bool a, .bool b => a == b
  | .num a, .num b => a == b
  | .str a, .str b => a == b
  | .arr xs, .arr ys => jeqList xs ys
  | .obj fs, .obj gs => jeqObj fs gs
  | _, _ => false

/-- Structural equality of JSON arrays. -/
def jeqList : List JValue → List JValue → Bool
  | [], [] => true
  | x :: xs, y :: ys => jeq x y && jeqList xs ys
  | _, _ => false

/-- Structural equality of JSON objects (ordered field lists). -/
def jeqObj : List (String × JValue) → List (String × JValue) → Bool
  | [], [] => true
  | (k, v) :: fs, (l, w) :: gs => k == l && jeq v w && jeqObj fs gs
  | _, _ => false

end

mutual

theorem jeq_iff : (a b : JValue) → (jeq a b = true ↔ a = b)
  | .null, b => by cases b <;> simp [jeq]
  | .bool x, b => by cases b <;> simp [jeq]
  | .num x, b => by cases b <;> simp [jeq]
  | .str x, b => by cases b <;> simp [jeq]
  | .arr xs, .arr ys => by simpa [jeq] using jeqList_iff xs ys
  | .arr _, .null | .arr _, .bool _ | .arr _, .num _ | .arr _, .str _
  | .arr _, .obj _ => by simp [jeq]
  | .obj fs, .obj gs => by simpa [jeq] using jeqObj_iff fs gs
  | .obj _, .null | .obj _, .bool _ | .obj _, .num _ | .obj _, .str _
  | .obj _, .arr _ => by simp [jeq]

theorem jeqList_iff : (xs ys : List JValue) → (jeqList xs ys = true ↔ xs = ys)
  | [], [] => by simp [jeqList]
  | [], _ :: _ => by simp [jeqList]
  | _ :: _, [] => by simp [jeqList]
  | x :: xs, y :: ys => by
    simp [jeqList, jeq_iff x y, jeqList_iff xs ys]

theorem jeqObj_iff : (fs gs : List (String × JValue)) → (jeqObj fs gs = true ↔ fs = gs)
  | [], [] => by simp [jeqObj]
  | [], _ :: _ => by simp [jeqObj]
  | _ :: _, [] => by simp [jeqObj]
  | (k, v) :: fs, (l, w) :: gs => by
    simp [jeqObj, jeq_iff v w, jeqObj_iff fs gs, and_assoc]

end

instance : DecidableEq JValue := fun a b => decidable_of_iff _ (jeq_iff a b)

/-- First-match association-list lookup (Python dict lookup). -/
def findA {α β : Type} [DecidableEq α] : List (α × β) → α → Option β
  | [], _ => none
  | (k, v) :: rest, key => if k = key then some v else findA rest key

/-- Association-list update: an existing key keeps its position, a new key
is appended (Python dict assignment). -/
def insertA {α β : Type} [DecidableEq α] : List (α × β) → α → β → List (α × β)
  | [], key, v => [(key, v)]
  | (k, w) :: rest, key, v =>
    if k = key then (k, v) :: rest else (k, w) :: insertA rest key v

/-- Python truthiness of a value. -/
def truthy : JValue → Bool
  | .null => false
  | .bool b => b
  | .num n => n != 0
  | .str s => s != ""
  | .arr xs => !xs.isEmpty
  | .obj fs => !fs.isEmpty

/-- dict lookup returning null for a missing key (Python dict.get with one
argument, whose missing-key result None is JValue.null here). -/
def objGet (fs : List (String × JValue)) (k : String) : JValue :=
  match findA fs k with
  | some v => v
  | none => .null

/-- Python x.get(k): only a dict has .get, anything else raises
AttributeError (in particular None, matching crashes on a failed fetch). -/
def pyGet : JValue → String → Except String JValue
  | .obj fs, k => .ok (objGet fs k)
  | _, _ => .error "AttributeError"

/-- Python x.get(k, d) with an explicit default. -/
def pyGetD : JValue → String → JValue → Except String JValue
  | .obj fs, k, d => .ok (match findA fs k with | some v => v | none => d)
  | _, _, _ => .error "AttributeError"

/-- Python x[k] subscription with a string key: KeyError on a dict without
the key, TypeError on a non-dict. -/
def pyIndex : JValue → String → Except String JValue
  | .obj fs, k =>
    (match findA fs k with
     | some v => .ok v
     | none => .error "KeyError")
  | _, _ => .error "TypeError"

/-- Python `k in x` for a dict receiver (key containment). -/
def hasKeyJ : JValue → String → Bool
  | .obj fs, k => (findA fs k).isSome
  | _, _ => false

/-- Python len(x): defined for lists, dicts and strings. -/
def pyLen : JValue → Except String Nat
  | .arr xs => .ok xs.length
  | .obj fs => .ok fs.length
  | .str s => .ok s.length
  | _ => .error "TypeError"

/-- Python iteration over a value in a for-loop.  Only list iteration is
exercised by this module; dict/str iteration paths in the source either
raise immediately afterwards or are unreachable, so they are folded into
the TypeError case. -/
def pyIterL : JValue → Except String (List JValue)
  | .arr xs => .ok xs
  | _ => .error "TypeError"

/-- Python str(x) as used by f-string interpolation of query parameters.
Containers are abbreviated; no claim exercises those cases. -/
def pyStr : JValue → String
  | .null => "None"
  | .bool true => "True"
  | .bool false => "False"
  | .num n => toString n
  | .str s => s
  | .arr _ => "list"
  | .obj _ => "dict"

/-- An HTTP response: status code and parsed JSON body. -/
structure Response where
  status : Nat
  body : JValue
deriving DecidableEq

/-- GET transport: url to response, error = raised exception. -/
abbrev Remote := String → Except String Response

/-- POST transport: url and JSON payload to response. -/
abbrev PostRemote := String → JValue → Except String Response

/-- The global ELEMENT_CACHE: query_url to (element id to element). -/
abbrev Cache := List (String × List (JValue × JValue))

/-- Mutable state of the module: the lru_cache memo table of
get_element_fromAPI plus the global ELEMENT_CACHE. -/
structure St where
  lru : List ((String × JValue) × JValue)
  cache : Cache
deriving DecidableEq

/-- Source: get_commit_url. -/
def get_commit_url (server_url project_id commit_id : String) : String :=
  server_url ++ "/projects/" ++ project_id ++ "/commits/" ++ commit_id

/-- The ELEMENT_CACHE probe at the top of get_element_fromAPI: a cached
element is returned only when present and truthy. -/
def element_cache_lookup (cache : Cache) (query_url : String) (element_id : JValue) :
    Option JValue :=
  match findA cache query_url with
  | some ctx =>
    (match findA ctx element_id with
     | some el => if truthy el then some el else none
     | none => none)
  | none => none

/-- The list-normalization of a 200 response body in get_element_fromAPI:
a list is replaced by its first element, None when empty. -/
def normalizeElement : JValue → JValue
  | .arr xs => (match xs with | [] => .null | x :: _ => x)
  | v => v

/-- Source: body of get_element_fromAPI (inside the lru_cache wrapper).
Returns (result, ELEMENT_CACHE after the call, whether session.get ran).
A 200 response whose body is a list is normalized to its first element
(None when empty); only a truthy element is stored in ELEMENT_CACHE; a
non-200 response falls through and returns None. -/
def get_element_body (remote : Remote) (cache : Cache) (query_url : String)
    (element_id : JValue) : Except String JValue × Cache × Bool :=
  match element_cache_lookup cache query_url element_id with
  | some el => (.ok el, cache, false)
  | none =>
    match element_id with
    | .str s =>
      (match remote (query_url ++ "/elements/" ++ s) with
       | .error e => (.error e, cache, true)
       | .ok resp =>
         if resp.status = 200 then
           if truthy (normalizeElement resp.body) then
             (.ok (normalizeElement resp.body),
              insertA cache query_url
                (insertA ((findA cache query_url).getD []) element_id (normalizeElement resp.body)),
              true)
           else (.ok (normalizeElement resp.body), cache, true)
         else (.ok .null, cache, true))
    | _ => (.error "TypeError", cache, false)

/-- Source: get_element_fromAPI, including its lru_cache(maxsize=2048)
wrapper: a memoized argument pair returns the memoized result with no
network request; a non-exception result is memoized, a raised exception
is not. -/
def get_element_fromAPI (remote : Remote) (st : St) (query_url : String)
    (element_id : JValue) : Except String JValue × St × Bool :=
  match findA st.lru (query_url, element_id) with
  | some r => (.ok r, st, false)
  | none =>
    match get_element_body remote st.cache query_url element_id with
    | (.ok r, c, n) => (.ok r, ⟨insertA st.lru (query_url, element_id) r, c⟩, n)
    | (.error e, c, n) => (.error e, ⟨st.lru, c⟩, n)

/-- One step of the cache_entry population loop of load_model_cache:
Python `if '@id' in el: cache_entry[el['@id']] = el`, with the TypeError
behavior of `in` / subscription on non-dict elements. -/
def warmStep (acc : List (JValue × JValue)) (el : JValue) :
    Except String (List (JValue × JValue)) :=
  match el with
  | .obj fs =>
    (match findA fs "@id" with
     | some idv => .ok (insertA acc idv el)
     | none => .ok acc)
  | .str s => if 1 < (s.splitOn "@id").length then .error "TypeError" else .ok acc
  | .arr xs => if xs.any (fun x => jeq x (.str "@id")) then .error "TypeError" else .ok acc
  | _ => .error "TypeError"

/-- The cache_entry dict built by load_model_cache from the element list. -/
def buildCacheEntry : List (JValue × JValue) → List JValue →
    Except String (List (JValue × JValue))
  | acc, [] => .ok acc
  | acc, el :: rest =>
    match warmStep acc el with
    | .error e => .error e
    | .ok acc2 => buildCacheEntry acc2 rest

/-- The elements bulk URL built by load_model_cache. -/
def elements_url_of (commit_url : String) (page_size : Nat) : String :=
  commit_url ++ "/elements?page%5Bsize%5D=" ++ toString page_size

/-- Source: load_model_cache.  Fetches all elements of the commit and
ASSIGNS the fresh cache_entry dict to ELEMENT_CACHE[commit_url],
replacing whatever entry set that context had.  Returns the number of
loaded elements.  Non-200 and non-list responses raise ValueError. -/
def load_model_cache (remote : Remote) (cache : Cache)
    (server_url project_id commit_id : String) (page_size : Nat) :
    Except String Nat × Cache :=
  let commit_url := get_commit_url server_url project_id commit_id
  match remote (elements_url_of commit_url page_size) with
  | .error e => (.error e, cache)
  | .ok resp =>
    if resp.status = 200 then
      match pyLen resp.body with
      | .error e => (.error e, cache)
      | .ok _ =>
        match resp.body with
        | .arr xs =>
          (match buildCacheEntry [] xs with
           | .error e => (.error e, cache)
           | .ok entry => (.ok entry.length, insertA cache commit_url entry))
        | _ => (.error "ValueError", cache)
    else (.error "ValueError", cache)

/-- Repeated calls of get_element_fromAPI for one (query_url, element_id),
each with its own transport; returns the final state and the list of
network-request flags, one per call. -/
def resolveCalls (st : St) (query_url : String) (element_id : JValue) :
    List Remote → St × List Bool
  | [] => (st, [])
  | r :: rest =>
    match get_element_fromAPI r st query_url element_id with
    | (_, st1, n) =>
      let (st2, ns) := resolveCalls st1 query_url element_id rest
      (st2, n :: ns)

/-- A failed resolve result: a raised exception or a falsy element (None
from a non-200 status or an empty list payload, or a falsy body). -/
def failRes : Except String JValue → Bool
  | .ok el => !truthy el
  | .error _ => true

theorem findA_insertA_self {α β : Type} [DecidableEq α] (l : List (α × β)) (k : α) (v : β) :
    findA (insertA l k v) k = some v := by
  induction l with
  | nil => simp [insertA, findA]
  | cons p rest ih =>
    obtain ⟨k1, v1⟩ := p
    by_cases h : k1 = k
    · subst h
      simp [insertA, findA]
    · simp [insertA, findA, h, ih]

theorem element_cache_lookup_truthy (cache : Cache) (u : String) (i : JValue) (el : JValue)
    (h : element_cache_lookup cache u i = some el) : truthy el = true := by
  unfold element_cache_lookup at h
  split at h
  · split at h
    · split at h
      · simp at h
        subst h
        assumption
      · exact absurd h (by simp)
    · exact absurd h (by simp)
  · exact absurd h (by simp)

theorem get_element_body_fail_cache (remote : Remote) (cache : Cache) (u : String)
    (i : JValue) (res : Except String JValue) (c : Cache) (n : Bool)
    (h : get_element_body remote cache u i = (res, c, n)) (hf : failRes res = true) :
    c = cache := by
  unfold get_element_body at h
  cases hl : element_cache_lookup cache u i with
  | some el =>
    simp only [hl] at h
    simp at h
    exact h.2.1.symm
  | none =>
    simp only [hl] at h
    cases i with
    | str s =>
      cases hr : remote (u ++ "/elements/" ++ s) with
      | error e =>
        simp only [hr] at h
        simp at h
        exact h.2.1.symm
      | ok resp =>
        simp only [hr] at h
        by_cases hs : resp.status = 200
        · rw [if_pos hs] at h
          by_cases ht : truthy (normalizeElement resp.body) = true
          · rw [if_pos ht] at h
            simp at h
            obtain ⟨h1, h2, h3⟩ := h
            rw [← h1] at hf
            simp [failRes, ht] at hf
          · rw [if_neg ht] at h
            simp at h
            exact h.2.1.symm
        · rw [if_neg hs] at h
          simp at h
          exact h.2.1.symm
    | null => simp at h; exact h.2.1.symm
    | bool b => simp at h; exact h.2.1.symm
    | num m => simp at h; exact h.2.1.symm
    | arr xs => simp at h; exact h.2.1.symm
    | obj fs => simp at h; exact h.2.1.symm

theorem get_element_body_error_cache (remote : Remote) (cache : Cache) (u : String)
    (i : JValue) (e : String) (c : Cache) (n : Bool)
    (h : get_element_body remote cache u i = (.error e, c, n)) : c = cache :=
  get_element_body_fail_cache remote cache u i (.error e) c n h rfl

theorem get_element_lru_hit (remote : Remote) (st : St) (u : String) (i : JValue) (el : JValue)
    (h : findA st.lru (u, i) = some el) :
    get_element_fromAPI remote st u i = (.ok el, st, false) := by
  simp [get_element_fromAPI, h]

theorem get_element_memoized (remote : Remote) (st st' : St) (u : String) (i : JValue)
    (el : JValue) (n : Bool)
    (h : get_element_fromAPI remote st u i = (.ok el, st', n)) :
    findA st'.lru (u, i) = some el := by
  unfold get_element_fromAPI at h
  split at h
  · rename_i r hr
    simp at h
    obtain ⟨h1, h2, h3⟩ := h
    rw [← h2, hr, h1]
  · rename_i hmiss
    split at h
    · rename_i r c nn hb
      simp at h
      obtain ⟨h1, h2, h3⟩ := h
      rw [← h2, ← h1]
      exact findA_insertA_self _ _ _
    · exact absurd h (by simp)

/-- C1.  Cache monotonicity: once a get_element_fromAPI call for
(query_url, element_id) has returned a truthy element, every later call
for the same pair, under any transport whatsoever, issues no network
request.  (The lru_cache layer memoizes the result and every later call
is answered from the memo table.) -/
theorem cache_monotonicity_no_refetch_after_success (remote : Remote) (st st' : St)
    (u : String) (i : JValue) (el : JValue) (n : Bool)
    (h : get_element_fromAPI remote st u i = (.ok el, st', n))
    (ht : truthy el = true) :
    ∀ rs : List Remote, (resolveCalls st' u i rs).2 = List.replicate rs.length false := by
  have hm := get_element_memoized remote st st' u i el n h
  intro rs
  induction rs with
  | nil => simp [resolveCalls]
  | cons r rest ih =>
    have hstep := get_element_lru_hit r st' u i el hm
    simp [resolveCalls, hstep, ih, List.replicate]

def c1el : JValue := .obj [("@id", .str "i1")]

def c1remote : Remote := fun _ => .ok ⟨200, c1el⟩

def c1bad : Remote := fun _ => .error "ConnectionError"

def c1st1 : St := ⟨[(("u", .str "i1"), c1el)], [("u", [(.str "i1", c1el)])]⟩

/-- Witness for C1 at a concrete successful resolve followed by two calls
against a transport that would fail: neither call issues a request. -/
theorem cache_monotonicity_no_refetch_after_success_witness :
    (resolveCalls c1st1 "u" (.str "i1") [c1bad, c1bad]).2 = List.replicate 2 false :=
  cache_monotonicity_no_refetch_after_success c1remote ⟨[], []⟩ c1st1 "u" (.str "i1")
    c1el true (by rfl) (by rfl) [c1bad, c1bad]

def c2elA : JValue := .obj [("@id", .str "a"), ("name", .str "FromBatchOne")]

def c2elB : JValue := .obj [("@id", .str "b"), ("name", .str "FromBatchTwo")]

def c2remote1 : Remote := fun _ => .ok ⟨200, .arr [c2elA]⟩

def c2remote2 : Remote := fun _ => .ok ⟨200, .arr [c2elB]⟩

def c2fail : Remote := fun _ => .error "ConnectionError"

def c2curl : String := get_commit_url "s" "p" "c"

def c2cache1 : Cache := (load_model_cache c2remote1 [] "s" "p" "c" 256).2

def c2cache2 : Cache := (load_model_cache c2remote2 c2cache1 "s" "p" "c" 256).2

/-- Counterexample to C2.  Two load_model_cache warms with disjoint
one-element batches for the same context: between the warms the
batch-one element resolves from the cache with no network request, but
after the second warm the very same lookup misses the cache, issues a
network request and fails when the transport is down.  The second warm
evicted the first batch: the cache does not accumulate. -/
theorem warm_accumulation_counterexample :
    (load_model_cache c2remote1 [] "s" "p" "c" 256).1 = .ok 1 ∧
    get_element_fromAPI c2fail ⟨[], c2cache1⟩ c2curl (.str "a") =
      (.ok c2elA, ⟨[((c2curl, .str "a"), c2elA)], c2cache1⟩, false) ∧
    (load_model_cache c2remote2 c2cache1 "s" "p" "c" 256).1 = .ok 1 ∧
    get_element_fromAPI c2fail ⟨[], c2cache2⟩ c2curl (.str "a") =
      (.error "ConnectionError", ⟨[], c2cache2⟩, true) :=
  ⟨rfl, rfl, rfl, rfl⟩

/-- C2 amended.  A successful load_model_cache REPLACES the whole
ELEMENT_CACHE entry set of its commit context with exactly the dict built
from the freshly fetched batch: after the warm, the context maps to that
entry alone, whatever the context held before (earlier warms and
individually stored elements included). -/
theorem warm_replaces_context_entry (remote : Remote) (cache : Cache)
    (s p c : String) (ps : Nat) (xs : List JValue) (entry : List (JValue × JValue))
    (h1 : remote (elements_url_of (get_commit_url s p c) ps) = .ok ⟨200, .arr xs⟩)
    (h2 : buildCacheEntry [] xs = .ok entry) :
    load_model_cache remote cache s p c ps =
      (.ok entry.length, insertA cache (get_commit_url s p c) entry) ∧
    findA (insertA cache (get_commit_url s p c) entry) (get_commit_url s p c) = some entry := by
  constructor
  · simp [load_model_cache, h1, h2, pyLen]
  · exact findA_insertA_self cache (get_commit_url s p c) entry

/-- Witness for the amended C2 at the concrete second warm of the
counterexample scenario: the context entry afterwards is exactly the
batch-two dict. -/
theorem warm_replaces_context_entry_witness :
    load_model_cache c2remote2 c2cache1 "s" "p" "c" 256 =
      (.ok [((JValue.str "b"), c2elB)].length, insertA c2cache1 (get_commit_url "s" "p" "c") [((JValue.str "b"), c2elB)]) ∧
    findA (insertA c2cache1 (get_commit_url "s" "p" "c") [((JValue.str "b"), c2elB)]) (get_commit_url "s" "p" "c") =
      some [((JValue.str "b"), c2elB)] :=
  warm_replaces_context_entry c2remote2 c2cache1 "s" "p" "c" 256 [c2elB]
    [((JValue.str "b"), c2elB)] (by rfl) (by rfl)

def c3r404 : Remote := fun _ => .ok ⟨404, .null⟩

def c3good : JValue := .obj [("@id", .str "i3"), ("name", .str "NowAvailable")]

def c3r200 : Remote := fun _ => .ok ⟨200, c3good⟩

def c3st1 : St := ⟨[(("u", .str "i3"), .null)], []⟩

/-- Counterexample to C3.  A 404 fetch returns None and creates no
ELEMENT_CACHE entry, but the lru_cache wrapper memoizes the None: the
later call, made when the element HAS become available on the remote
side, still returns None and issues no network request, so the retry
cannot succeed. -/
theorem failed_fetch_retry_counterexample :
    get_element_fromAPI c3r404 ⟨[], []⟩ "u" (.str "i3") = (.ok .null, c3st1, true) ∧
    get_element_fromAPI c3r200 c3st1 "u" (.str "i3") = (.ok .null, c3st1, false) :=
  ⟨rfl, rfl⟩

/-- C3 amended.  For every call of get_element_fromAPI: (1) a failed
fetch (exception, or a falsy result such as the None of a non-200 status
or of an empty list payload) never creates an ELEMENT_CACHE entry; (2) a
raised exception leaves the whole state unchanged, so only that kind of
failure is retried with a fresh network request; (3) a non-exception
failure is memoized by the lru_cache, and every later call for the same
(context, id) returns the memoized failure with no network request. -/
theorem failed_fetch_cache_behavior (remote : Remote) (st : St) (u : String) (i : JValue) :
    (∀ r st' n, get_element_fromAPI remote st u i = (r, st', n) → failRes r = true →
      st'.cache = st.cache) ∧
    (∀ e st' n, get_element_fromAPI remote st u i = (.error e, st', n) → st' = st) ∧
    (∀ el st' n, get_element_fromAPI remote st u i = (.ok el, st', n) → truthy el = false →
      findA st'.lru (u, i) = some el ∧
      ∀ remote2, get_element_fromAPI remote2 st' u i = (.ok el, st', false)) := by
  refine ⟨?_, ?_, ?_⟩
  · intro r st' n h hf
    unfold get_element_fromAPI at h
    cases hl : findA st.lru (u, i) with
    | some m =>
      simp only [hl] at h
      simp at h
      rw [← h.2.1]
    | none =>
      simp only [hl] at h
      cases hb : get_element_body remote st.cache u i with
      | mk res rest =>
        obtain ⟨c, nn⟩ := rest
        cases res with
        | ok r0 =>
          simp only [hb] at h
          simp at h
          obtain ⟨h1, h2, h3⟩ := h
          rw [← h2]
          apply get_element_body_fail_cache remote st.cache u i (.ok r0) c nn hb
          rw [← h1] at hf
          exact hf
        | error e0 =>
          simp only [hb] at h
          simp at h
          obtain ⟨h1, h2, h3⟩ := h
          rw [← h2]
          exact get_element_body_error_cache remote st.cache u i e0 c nn hb
  · intro e st' n h
    unfold get_element_fromAPI at h
    cases hl : findA st.lru (u, i) with
    | some m =>
      simp only [hl] at h
      simp at h
    | none =>
      simp only [hl] at h
      cases hb : get_element_body remote st.cache u i with
      | mk res rest =>
        obtain ⟨c, nn⟩ := rest
        cases res with
        | ok r0 =>
          simp only [hb] at h
          simp at h
        | error e0 =>
          simp only [hb] at h
          simp at h
          obtain ⟨h1, h2, h3⟩ := h
          have hc := get_element_body_error_cache remote st.cache u i e0 c nn hb
          rw [← h2, hc]
  · intro el st' n h hfalsy
    have hm := get_element_memoized remote st st' u i el n h
    exact ⟨hm, fun remote2 => get_element_lru_hit remote2 st' u i el hm⟩

/-- Witness for the amended C3 at the concrete 404-then-200 scenario:
the memoized None is served to the retry without a network request. -/
theorem failed_fetch_cache_behavior_witness :
    get_element_fromAPI c3r200 c3st1 "u" (.str "i3") = (.ok .null, c3st1, false) :=
  (((failed_fetch_cache_behavior c3r404 ⟨[], []⟩ "u" (.str "i3")).2.2
    .null c3st1 true (by rfl) (by rfl)).2) c3r200

/-- The query-results URL built by the bulk query helpers. -/
def query_url_of (server_url project_id commit_id : String) : String :=
  server_url ++ "/projects/" ++ project_id ++ "/query-results?commitId=" ++ commit_id

/-- The structured predicate body POSTed by get_elements_byKind_fromAPI. -/
def kind_query_input (kind : JValue) : JValue :=
  .obj [("@type", .str "Query"),
        ("where", .obj [("@type", .str "PrimitiveConstraint"),
                        ("inverse", .bool false),
                        ("operator", .str "="),
                        ("property", .str "@type"),
                        ("value", .arr [.str (pyStr kind)])])]

/-- Source: get_elements_byKind_fromAPI.  POSTs the kind query; a 200
response returns the parsed body; a non-200 response raises ValueError
INSIDE the try block whose blanket handler prints the error and returns
an empty list, and a transport exception is swallowed the same way, so
the function can never surface a failure. -/
def get_elements_byKind_fromAPI (post : PostRemote) (server_url project_id commit_id : String)
    (kind : JValue) : JValue :=
  match post (query_url_of server_url project_id commit_id) (kind_query_input kind) with
  | .error _ => .arr []
  | .ok resp => if resp.status = 200 then resp.body else .arr []

/-- Counterexample to C4.  A 500 response from the query endpoint is
silently converted into an empty element list: no error of any kind
reaches the caller of get_elements_byKind_fromAPI, because the ValueError
the function raises is caught by its own blanket except handler. -/
theorem bulk_query_failure_counterexample :
    get_elements_byKind_fromAPI (fun _ _ => .ok ⟨500, .str "internal server error"⟩)
      "s" "p" "c" (.str "PartUsage") = .arr [] :=
  rfl

/-- C4 amended.  For every engine-internal bulk query, a non-success
remote response (and likewise a transport exception) does NOT surface to
the caller: the raised ValueError is caught by the blanket except of
get_elements_byKind_fromAPI itself, which returns an empty list. -/
theorem bulk_query_failure_returns_empty (post : PostRemote)
    (server_url project_id commit_id : String) (kind : JValue) :
    (∀ resp, post (query_url_of server_url project_id commit_id) (kind_query_input kind) = .ok resp →
      resp.status ≠ 200 →
      get_elements_byKind_fromAPI post server_url project_id commit_id kind = .arr []) ∧
    (∀ e, post (query_url_of server_url project_id commit_id) (kind_query_input kind) = .error e →
      get_elements_byKind_fromAPI post server_url project_id commit_id kind = .arr []) := by
  constructor
  · intro resp hp hs
    simp [get_elements_byKind_fromAPI, hp, hs]
  · intro e hp
    simp [get_elements_byKind_fromAPI, hp]

/-- Witness for the amended C4 at a concrete 500 response. -/
theorem bulk_query_failure_returns_empty_witness :
    get_elements_byKind_fromAPI (fun _ _ => .ok ⟨500, .str "boom"⟩)
      "srv" "prj" "cmt" (.str "RequirementUsage") = .arr [] :=
  (bulk_query_failure_returns_empty (fun _ _ => .ok ⟨500, .str "boom"⟩)
    "srv" "prj" "cmt" (.str "RequirementUsage")).1 ⟨500, .str "boom"⟩ (by rfl) (by decide)

/-- The structured predicate body POSTed by get_elements_byProperty_fromAPI. -/
def property_query_input (property value : String) : JValue :=
  .obj [("@type", .str "Query"),
        ("where", .obj [("@type", .str "PrimitiveConstraint"),
                        ("inverse", .bool false),
                        ("operator", .str "="),
                        ("property", .str property),
                        ("value", .arr [.str value])])]

/-- The innermost loop of get_elements_byProperty_fromAPI over the
ownedRelationship references of one same-type element el: a Redefinition
relationship whose redefinedFeature carries the requested property value
appends el to the additional_elements list.  Any raised exception is
returned with the state at the moment of the raise. -/
def byProperty_rels (remote : Remote) (st : St) (curl : String) (property value : String)
    (el : JValue) (additional : List JValue) :
    List JValue → (Except String (List JValue)) × St
  | [] => (.ok additional, st)
  | rid :: rest =>
    match pyIndex rid "@id" with
    | .error e => (.error e, st)
    | .ok idv =>
      match get_element_fromAPI remote st curl idv with
      | (.error e, st1, _) => (.error e, st1)
      | (.ok rel, st1, _) =>
        match pyGet rel "@type" with
        | .error e => (.error e, st1)
        | .ok t =>
          if t = .str "Redefinition" then
            match pyGet rel "redefinedFeature" with
            | .error e => (.error e, st1)
            | .ok rf =>
              match pyGet rf "@id" with
              | .error e => (.error e, st1)
              | .ok rfid =>
                match get_element_fromAPI remote st1 curl rfid with
                | (.error e, st2, _) => (.error e, st2)
                | (.ok redef, st2, _) =>
                  match pyGet redef property with
                  | .error e => (.error e, st2)
                  | .ok pv =>
                    byProperty_rels remote st2 curl property value el
                      (if pv = .str value then additional ++ [el] else additional) rest
          else byProperty_rels remote st1 curl property value el additional rest

/-- The loop of get_elements_byProperty_fromAPI over the elements of the
same type as one query hit: elements other than the hit itself have their
relationships scanned for matching redefinitions. -/
def byProperty_inner (remote : Remote) (st : St) (curl : String) (property value : String)
    (element : JValue) (additional : List JValue) :
    List JValue → (Except String (List JValue)) × St
  | [] => (.ok additional, st)
  | el :: rest =>
    match pyGet el "@id" with
    | .error e => (.error e, st)
    | .ok elid =>
      match pyGet element "@id" with
      | .error e => (.error e, st)
      | .ok emid =>
        if elid ≠ emid then
          match pyGetD el "ownedRelationship" (.arr []) with
          | .error e => (.error e, st)
          | .ok rels =>
            match pyIterL rels with
            | .error e => (.error e, st)
            | .ok rl =>
              match byProperty_rels remote st curl property value el additional rl with
              | (.error e, st1) => (.error e, st1)
              | (.ok add2, st1) =>
                byProperty_inner remote st1 curl property value element add2 rest
        else byProperty_inner remote st curl property value element additional rest

/-- The outer loop of get_elements_byProperty_fromAPI over the query
hits: each hit triggers a bulk byKind query for its own type tag. -/
def byProperty_outer (post : PostRemote) (remote : Remote) (st : St)
    (server_url project_id commit_id property value : String) (additional : List JValue) :
    List JValue → (Except String (List JValue)) × St
  | [] => (.ok additional, st)
  | element :: rest =>
    match pyGetD element "@type" (.str "") with
    | .error e => (.error e, st)
    | .ok t =>
      match pyIterL (get_elements_byKind_fromAPI post server_url project_id commit_id t) with
      | .error e => (.error e, st)
      | .ok els =>
        match byProperty_inner remote st (get_commit_url server_url project_id commit_id)
            property value element additional els with
        | (.error e, st1) => (.error e, st1)
        | (.ok add2, st1) =>
          byProperty_outer post remote st1 server_url project_id commit_id property value
            add2 rest

/-- Source: get_elements_byProperty_fromAPI.  POSTs the property query;
on a 200 response it scans for redefinition matches, then APPENDS the
additional_elements list AS A SINGLE ITEM to the query result list and
returns it; a non-200 response raises a ValueError that its own blanket
except handler catches, returning an empty list, as it does for any
exception raised during the scan. -/
def get_elements_byProperty_fromAPI (post : PostRemote) (remote : Remote) (st : St)
    (server_url project_id commit_id property value : String) : List JValue × St :=
  match post (query_url_of server_url project_id commit_id)
      (property_query_input property value) with
  | .error _ => ([], st)
  | .ok resp =>
    if resp.status = 200 then
      match pyIterL resp.body with
      | .error _ => ([], st)
      | .ok elems =>
        match byProperty_outer post remote st server_url project_id commit_id property value
            [] elems with
        | (.error _, st1) => ([], st1)
        | (.ok additional, st1) => (elems ++ [.arr additional], st1)
    else ([], st)

/-- Counterexample to C9.  A successful fetchByProperty call whose query
matches nothing returns a one-item list whose single item is a nested
(empty) list, not an Element record: the source appends the
additional_elements LIST itself to the result. -/
theorem byProperty_nested_list_counterexample :
    get_elements_byProperty_fromAPI (fun _ _ => .ok ⟨200, .arr []⟩)
      (fun _ => .error "ConnectionError") ⟨[], []⟩ "s" "p" "c" "qualifiedName" "Q" =
      ([.arr []], ⟨[], []⟩) :=
  rfl

/-- C9 amended.  Every successful (200, list-bodied, exception-free)
get_elements_byProperty_fromAPI call returns the query hits followed by
one extra trailing item that is itself a list (the collected
redefinition matches, possibly empty): the result is never a flat list
of element records. -/
theorem byProperty_appends_nested_list (post : PostRemote) (remote : Remote) (st st' : St)
    (server_url project_id commit_id property value : String)
    (xs adds : List JValue)
    (hpost : post (query_url_of server_url project_id commit_id)
      (property_query_input property value) = .ok ⟨200, .arr xs⟩)
    (houter : byProperty_outer post remote st server_url project_id commit_id property value
      [] xs = (.ok adds, st')) :
    get_elements_byProperty_fromAPI post remote st server_url project_id commit_id
      property value = (xs ++ [.arr adds], st') := by
  simp [get_elements_byProperty_fromAPI, hpost, pyIterL, houter]

def c9el : JValue := .obj [("@id", .str "q1"), ("@type", .str "PartUsage"), ("qualifiedName", .str "Pkg::Q")]

def c9post : PostRemote := fun _ _ => .ok ⟨200, .arr [c9el]⟩

/-- Witness for the amended C9: a query with one hit returns that hit
plus a trailing nested empty list. -/
theorem byProperty_appends_nested_list_witness :
    get_elements_byProperty_fromAPI c9post (fun _ => .error "ConnectionError") ⟨[], []⟩
      "s" "p" "c" "qualifiedName" "Pkg::Q" = ([c9el, .arr []], ⟨[], []⟩) :=
  byProperty_appends_nested_list c9post (fun _ => .error "ConnectionError") ⟨[], []⟩ ⟨[], []⟩
    "s" "p" "c" "qualifiedName" "Pkg::Q" [c9el] [] (by rfl) (by rfl)

mutual

/-- Source: check_specialization_hierarchy.  Depth-first walk over
ownedSpecialization edges with a visited-id set threaded through the
whole call (the Python set object is mutated in place, so ids seen in
one branch stay visited in later branches).  The fuel argument bounds
the recursion depth (Python would raise RecursionError at its own
recursion limit); fuel is consumed along the walk, so any sufficiently
large fuel computes the same result as the unbounded recursion. -/
def check_specialization_hierarchy (fuel : Nat) (remote : Remote) (st : St)
    (query_url : String) (element super_element : JValue) (visited : List JValue) :
    (Except String (Bool × List JValue)) × St :=
  match fuel with
  | 0 => (.error "RecursionError", st)
  | f + 1 =>
    match pyGet element "@id" with
    | .error e => (.error e, st)
    | .ok el_id =>
      if el_id ∈ visited then (.ok (false, visited), st)
      else
        match pyGet element "name" with
        | .error e => (.error e, st)
        | .ok _ =>
          match pyGet super_element "name" with
          | .error e => (.error e, st)
          | .ok _ =>
            match pyGet super_element "@id" with
            | .error e => (.error e, st)
            | .ok sup_id =>
              if el_id = sup_id then (.ok (true, el_id :: visited), st)
              else
                match pyGetD element "ownedSpecialization" (.arr []) with
                | .error e => (.error e, st)
                | .ok specs =>
                  match pyIterL specs with
                  | .error e => (.error e, st)
                  | .ok rels =>
                    check_spec_loop f remote st query_url super_element (el_id :: visited) rels

/-- The for-loop of check_specialization_hierarchy over the
ownedSpecialization references, threading the visited set and the cache
state, short-circuiting on the first general element that reaches the
target. -/
def check_spec_loop (fuel : Nat) (remote : Remote) (st : St) (query_url : String)
    (super_element : JValue) (visited : List JValue) (rels : List JValue) :
    (Except String (Bool × List JValue)) × St :=
  match rels with
  | [] => (.ok (false, visited), st)
  | rel_ref :: rest =>
    match fuel with
    | 0 => (.error "RecursionError", st)
    | f + 1 =>
      match pyIndex rel_ref "@id" with
      | .error e => (.error e, st)
      | .ok rid =>
        match get_element_fromAPI remote st query_url rid with
        | (.error e, st1, _) => (.error e, st1)
        | (.ok rel, st1, _) =>
          if truthy rel then
            match pyGet rel "general" with
            | .error e => (.error e, st1)
            | .ok general =>
              if truthy general then
                match pyIndex general "@id" with
                | .error e => (.error e, st1)
                | .ok gid =>
                  match get_element_fromAPI remote st1 query_url gid with
                  | (.error e, st2, _) => (.error e, st2)
                  | (.ok gel, st2, _) =>
                    if truthy gel then
                      match check_specialization_hierarchy f remote st2 query_url gel
                          super_element visited with
                      | (.error e, st3) => (.error e, st3)
                      | (.ok (true, vis2), st3) => (.ok (true, vis2), st3)
                      | (.ok (false, vis2), st3) =>
                        check_spec_loop f remote st3 query_url super_element vis2 rest
                    else check_spec_loop f remote st2 query_url super_element visited rest
              else check_spec_loop f remote st1 query_url super_element visited rest
          else check_spec_loop f remote st1 query_url super_element visited rest

end

/-- The kind filter and per-candidate loop of find_elements_specializing:
candidates whose specialization walk reaches the super element are kept,
except the super element itself (compared by id). -/
def find_spec_loop (fuel : Nat) (remote : Remote) (st : St) (query_url : String)
    (super_element : JValue) (element_kind : Option String) (found : List JValue) :
    List JValue → (Except String (List JValue)) × St
  | [] => (.ok found, st)
  | el :: rest =>
    match (match element_kind with
           | none => (.ok false : Except String Bool)
           | some k =>
             if k = "" then .ok false
             else
               match pyGet el "@type" with
               | .error e => .error e
               | .ok t => .ok (t ≠ .str k)) with
    | .error e => (.error e, st)
    | .ok true => find_spec_loop fuel remote st query_url super_element element_kind found rest
    | .ok false =>
      match check_specialization_hierarchy fuel remote st query_url el super_element [] with
      | (.error e, st1) => (.error e, st1)
      | (.ok (b, _), st1) =>
        if b then
          match pyGet el "@id" with
          | .error e => (.error e, st1)
          | .ok eid =>
            match pyGet super_element "@id" with
            | .error e => (.error e, st1)
            | .ok sid =>
              if eid ≠ sid then
                find_spec_loop fuel remote st1 query_url super_element element_kind
                  (found ++ [el]) rest
              else find_spec_loop fuel remote st1 query_url super_element element_kind found rest
        else find_spec_loop fuel remote st1 query_url super_element element_kind found rest

/-- Source: find_elements_specializing.  Resolves the super element by a
qualifiedName property query (first hit wins), then filters the
candidate list by the specialization walk, excluding the super element
itself by id. -/
def find_elements_specializing (fuel : Nat) (post : PostRemote) (remote : Remote) (st : St)
    (server_url project_id commit_id : String) (elements : List JValue)
    (super_element_name : String) (element_kind : Option String) :
    (Except String (List JValue)) × St :=
  match get_elements_byProperty_fromAPI post remote st server_url project_id commit_id
      "qualifiedName" super_element_name with
  | (supers, st1) =>
    match supers with
    | [] => (.ok [], st1)
    | s :: _ =>
      match pyGet s "name" with
      | .error e => (.error e, st1)
      | .ok _ =>
        match pyGet s "@id" with
        | .error e => (.error e, st1)
        | .ok _ =>
          find_spec_loop fuel remote st1 (get_commit_url server_url project_id commit_id)
            s element_kind [] elements

def c5elA : JValue :=
  .obj [("@id", .str "idA"), ("name", .str "A"),
        ("ownedSpecialization", .arr [.obj [("@id", .str "sAB")]])]

def c5elB : JValue :=
  .obj [("@id", .str "idB"), ("name", .str "B"),
        ("ownedSpecialization", .arr [.obj [("@id", .str "sBA")]])]

def c5relAB : JValue :=
  .obj [("@id", .str "sAB"), ("@type", .str "Specialization"),
        ("general", .obj [("@id", .str "idB")])]

def c5relBA : JValue :=
  .obj [("@id", .str "sBA"), ("@type", .str "Specialization"),
        ("general", .obj [("@id", .str "idA")])]

def c5cache : Cache :=
  [("u", [(.str "idA", c5elA), (.str "idB", c5elB),
          (.str "sAB", c5relAB), (.str "sBA", c5relBA)])]

def c5st : St := ⟨[], c5cache⟩

def c5st1 : St := ⟨[(("u", .str "sAB"), c5relAB)], c5cache⟩

def c5st2 : St :=
  ⟨[(("u", .str "sAB"), c5relAB), (("u", .str "idB"), c5elB)], c5cache⟩

def c5st3 : St :=
  ⟨[(("u", .str "sAB"), c5relAB), (("u", .str "idB"), c5elB),
    (("u", .str "sBA"), c5relBA)], c5cache⟩

def c5st4 : St :=
  ⟨[(("u", .str "sAB"), c5relAB), (("u", .str "idB"), c5elB),
    (("u", .str "sBA"), c5relBA), (("u", .str "idA"), c5elA)], c5cache⟩

def c5target (tid : String) : JValue := .obj [("@id", .str tid)]

theorem c5_step1 (f : Nat) (remote : Remote) (st : St) (tid : String) :
    check_specialization_hierarchy (f + 1) remote st "u" c5elA (c5target tid)
      [.str "idB", .str "idA"] = (.ok (false, [.str "idB", .str "idA"]), st) := by
  simp [check_specialization_hierarchy, c5elA, c5target, pyGet, objGet, findA]

theorem c5_step2 (f : Nat) (remote : Remote) (tid : String) :
    check_spec_loop (f + 2) remote c5st2 "u" (c5target tid)
      [.str "idB", .str "idA"] [.obj [("@id", .str "sBA")]] =
      (.ok (false, [.str "idB", .str "idA"]), c5st4) := by
  have h1 := c5_step1 f remote c5st4 tid
  have p1 : pyIndex (JValue.obj [("@id", JValue.str "sBA")]) "@id" =
      .ok (.str "sBA") := rfl
  have g1 : get_element_fromAPI remote c5st2 "u" (.str "sBA") =
      (.ok c5relBA, c5st3, false) := rfl
  have t1 : truthy c5relBA = true := rfl
  have p2 : pyGet c5relBA "general" = .ok (.obj [("@id", .str "idA")]) := rfl
  have t2 : truthy (JValue.obj [("@id", JValue.str "idA")]) = true := rfl
  have p3 : pyIndex (JValue.obj [("@id", JValue.str "idA")]) "@id" =
      .ok (.str "idA") := rfl
  have g2 : get_element_fromAPI remote c5st3 "u" (.str "idA") =
      (.ok c5elA, c5st4, false) := rfl
  have t3 : truthy c5elA = true := rfl
  simp [check_spec_loop, p1, g1, t1, p2, t2, p3, g2, t3, h1]

theorem c5_step3 (f : Nat) (remote : Remote) (tid : String) (hB : tid ≠ "idB") :
    check_specialization_hierarchy (f + 3) remote c5st2 "u" c5elB
      (c5target tid) [.str "idA"] = (.ok (false, [.str "idB", .str "idA"]), c5st4) := by
  have h2 := c5_step2 f remote tid
  have p1 : pyGet c5elB "@id" = .ok (.str "idB") := rfl
  have m1 : JValue.str "idB" ∉ [JValue.str "idA"] := by decide
  have p2 : pyGet c5elB "name" = .ok (.str "B") := rfl
  have p3 : pyGet (c5target tid) "name" = .ok .null := rfl
  have p4 : pyGet (c5target tid) "@id" = .ok (.str tid) := rfl
  have p5 : pyGetD c5elB "ownedSpecialization" (.arr []) =
      .ok (.arr [.obj [("@id", .str "sBA")]]) := rfl
  simp [check_specialization_hierarchy, p1, m1, p2, p3, p4, p5, pyIterL,
    Ne.symm hB, h2]

theorem c5_step4 (f : Nat) (remote : Remote) (tid : String) (hB : tid ≠ "idB") :
    check_spec_loop (f + 4) remote c5st "u" (c5target tid)
      [.str "idA"] [.obj [("@id", .str "sAB")]] =
      (.ok (false, [.str "idB", .str "idA"]), c5st4) := by
  have h3 := c5_step3 f remote tid hB
  have p1 : pyIndex (JValue.obj [("@id", JValue.str "sAB")]) "@id" =
      .ok (.str "sAB") := rfl
  have g1 : get_element_fromAPI remote c5st "u" (.str "sAB") =
      (.ok c5relAB, c5st1, false) := rfl
  have t1 : truthy c5relAB = true := rfl
  have p2 : pyGet c5relAB "general" = .ok (.obj [("@id", .str "idB")]) := rfl
  have t2 : truthy (JValue.obj [("@id", JValue.str "idB")]) = true := rfl
  have p3 : pyIndex (JValue.obj [("@id", JValue.str "idB")]) "@id" =
      .ok (.str "idB") := rfl
  have g2 : get_element_fromAPI remote c5st1 "u" (.str "idB") =
      (.ok c5elB, c5st2, false) := rfl
  have t3 : truthy c5elB = true := rfl
  simp [check_spec_loop, p1, g1, t1, p2, t2, p3, g2, t3, h3]

/-- C5.  Specialization termination under cycles: on the cyclic graph
where A specializes B and B specializes A, the check of A against any
target whose id differs from the ids of A and B returns false for EVERY
fuel of at least 5 — the walk visits each id once (the visited set
returned is exactly the two ids), terminates without exhausting any
recursion budget beyond that bound, and never consults the transport
(the final state shows only memo-table growth from cache hits). -/
theorem spec_cycle_terminates_false (fuel : Nat) (tid : String) (remote : Remote)
    (hA : tid ≠ "idA") (hB : tid ≠ "idB") (hf : 5 ≤ fuel) :
    check_specialization_hierarchy fuel remote c5st "u" c5elA (c5target tid) [] =
      (.ok (false, [.str "idB", .str "idA"]), c5st4) := by
  obtain ⟨k, rfl⟩ := Nat.exists_eq_add_of_le' hf
  have h4 := c5_step4 k remote tid hB
  have p1 : pyGet c5elA "@id" = .ok (.str "idA") := rfl
  have p2 : pyGet c5elA "name" = .ok (.str "A") := rfl
  have p3 : pyGet (c5target tid) "name" = .ok .null := rfl
  have p4 : pyGet (c5target tid) "@id" = .ok (.str tid) := rfl
  have p5 : pyGetD c5elA "ownedSpecialization" (.arr []) =
      .ok (.arr [.obj [("@id", .str "sAB")]]) := rfl
  simp [check_specialization_hierarchy, p1, p2, p3, p4, p5, pyIterL,
    Ne.symm hA, h4]

/-- Witness for C5 at a concrete target id and fuel 9, under a transport
that would fail if consulted. -/
theorem spec_cycle_terminates_false_witness :
    check_specialization_hierarchy 9 (fun _ => .error "down") c5st "u" c5elA
      (c5target "idT") [] = (.ok (false, [.str "idB", .str "idA"]), c5st4) :=
  spec_cycle_terminates_false 9 "idT" (fun _ => .error "down")
    (by decide) (by decide) (by decide)

theorem check_self_identity (fuel : Nat) (remote : Remote) (st : St) (u : String)
    (fs : List (String × JValue)) :
    check_specialization_hierarchy (fuel + 1) remote st u (.obj fs) (.obj fs) [] =
      (.ok (true, [objGet fs "@id"]), st) := by
  simp [check_specialization_hierarchy, pyGet]

/-- C6.  Specialization reflexivity-via-identity with self-exclusion:
for every element record X, the check of X against X itself returns true
at once (identity match by id, whatever that id is, without touching the
transport or the state), while find_elements_specializing on the
candidate list [X], when the qualified-name query resolves the supertype
to X itself (the property query and the per-type query both return [X]),
returns a result list that excludes X: the empty list. -/
theorem specialization_identity_and_exclusion :
    (∀ (fuel : Nat) (remote : Remote) (st : St) (u : String) (fs : List (String × JValue)),
      check_specialization_hierarchy (fuel + 1) remote st u (.obj fs) (.obj fs) [] =
        (.ok (true, [objGet fs "@id"]), st)) ∧
    (∀ (fuel : Nat) (remote : Remote) (st : St) (s p c qn : String)
        (fs : List (String × JValue)),
      find_elements_specializing (fuel + 1) (fun _ _ => .ok ⟨200, .arr [.obj fs]⟩) remote st
        s p c [.obj fs] qn none = (.ok [], st)) := by
  constructor
  · exact check_self_identity
  · intro fuel remote st s p c qn fs
    simp [find_elements_specializing, get_elements_byProperty_fromAPI, byProperty_outer,
      byProperty_inner, get_elements_byKind_fromAPI, pyIterL, pyGetD, pyGet,
      find_spec_loop, check_self_identity]

/-- The terminal interpretation of a resolved (and possibly
feature-chain-dereferenced) value element in
get_attribute_value_from_usage: a literal value field is returned
verbatim, a FeatureReferenceExpression returns the declaredName of its
resolved truthy referent, an EnumerationUsage returns its own name.
A none result means nothing interpretable or a falsy value element: the
relationship loop of the caller then continues with its remaining
references, as the source falls out of all the ifs back into the for
loop. -/
def attr_value_terminal (remote : Remote) (st : St) (query_url : String)
    (value : JValue) : (Option (Except String JValue)) × St :=
  if truthy value then
    match pyGet value "@id" with
    | .error e => (some (.error e), st)
    | .ok _ =>
      match pyGet value "@type" with
      | .error e => (some (.error e), st)
      | .ok vt =>
        if hasKeyJ value "value" then
          match pyIndex value "value" with
          | .error e => (some (.error e), st)
          | .ok v => (some (.ok v), st)
        else
          if vt = .str "FeatureReferenceExpression" then
            match pyGet value "referent" with
            | .error e => (some (.error e), st)
            | .ok ref =>
              match pyGet ref "@id" with
              | .error e => (some (.error e), st)
              | .ok refid =>
                match get_element_fromAPI remote st query_url refid with
                | (.error e, st1, _) => (some (.error e), st1)
                | (.ok enumeration, st1, _) =>
                  if truthy enumeration then
                    match pyGet enumeration "declaredName" with
                    | .error e => (some (.error e), st1)
                    | .ok dn => (some (.ok dn), st1)
                  else (none, st1)
          else
            if vt = .str "EnumerationUsage" then
              match pyGet value "name" with
              | .error e => (some (.error e), st)
              | .ok nm => (some (.ok nm), st)
            else (none, st)
  else (none, st)

/-- The loop of get_attribute_value_from_usage over the attribute usage
ownedRelationship references.  For a FeatureValue relationship with a
truthy value reference, the value element is fetched (the fetch result
is probed by the print before the truthiness test, so a missing element
raises AttributeError, as in the source) and handed to the terminal
interpretation; any non-matching relationship lets the loop continue,
and an exhausted loop returns None. -/
def attr_value_rels (remote : Remote) (st : St) (query_url : String) :
    List JValue → (Except String JValue) × St
  | [] => (.ok .null, st)
  | rel_ref :: rest =>
    match pyIndex rel_ref "@id" with
    | .error e => (.error e, st)
    | .ok rid =>
      match get_element_fromAPI remote st query_url rid with
      | (.error e, st1, _) => (.error e, st1)
      | (.ok rel, st1, _) =>
        match pyGet rel "@id" with
        | .error e => (.error e, st1)
        | .ok _ =>
          match pyGet rel "@type" with
          | .error e => (.error e, st1)
          | .ok t =>
            if truthy rel then
              if t = .str "FeatureValue" then
                match pyGet rel "value" with
                | .error e => (.error e, st1)
                | .ok value_id =>
                  if truthy value_id then
                    match pyGet value_id "@id" with
                    | .error e => (.error e, st1)
                    | .ok vid =>
                      match get_element_fromAPI remote st1 query_url vid with
                      | (.error e, st2, _) => (.error e, st2)
                      | (.ok value0, st2, _) =>
                        match pyGet value0 "@type" with
                        | .error e => (.error e, st2)
                        | .ok vt =>
                          if vt = .str "FeatureChainExpression" then
                            match pyGet value0 "targetFeature" with
                            | .error e => (.error e, st2)
                            | .ok tf =>
                              match pyGet tf "@id" with
                              | .error e => (.error e, st2)
                              | .ok tfid =>
                                match get_element_fromAPI remote st2 query_url tfid with
                                | (.error e, st3, _) => (.error e, st3)
                                | (.ok value1, st3, _) =>
                                  (match attr_value_terminal remote st3 query_url value1 with
                                   | (some r, st4) => (r, st4)
                                   | (none, st4) => attr_value_rels remote st4 query_url rest)
                          else
                            (match attr_value_terminal remote st2 query_url value0 with
                             | (some r, st4) => (r, st4)
                             | (none, st4) => attr_value_rels remote st4 query_url rest)
                  else attr_value_rels remote st1 query_url rest
              else attr_value_rels remote st1 query_url rest
            else attr_value_rels remote st1 query_url rest

/-- Source: get_attribute_value_from_usage.  Scans the ownedRelationship
list of the attribute usage for a FeatureValue and interprets the value
it references; returns None when nothing interpretable is found. -/
def get_attribute_value_from_usage (remote : Remote) (st : St) (query_url : String)
    (attr_usage : JValue) : (Except String JValue) × St :=
  match pyGet attr_usage "@id" with
  | .error e => (.error e, st)
  | .ok _ =>
    match pyGetD attr_usage "ownedRelationship" (.arr []) with
    | .error e => (.error e, st)
    | .ok rels =>
      match pyLen rels with
      | .error e => (.error e, st)
      | .ok _ =>
        match pyIterL rels with
        | .error e => (.error e, st)
        | .ok l => attr_value_rels remote st query_url l

def c7attr : JValue :=
  .obj [("@id", .str "attr"), ("ownedRelationship", .arr [.obj [("@id", .str "r1")]])]

def c7relFV : JValue :=
  .obj [("@id", .str "r1"), ("@type", .str "FeatureValue"),
        ("value", .obj [("@id", .str "v1")])]

def c7valLit (v : JValue) : JValue := .obj [("@id", .str "v1"), ("value", v)]

def c7stLit (v : JValue) : St :=
  ⟨[], [("u", [(.str "r1", c7relFV), (.str "v1", c7valLit v)])]⟩

def c7valRef : JValue :=
  .obj [("@id", .str "v1"), ("@type", .str "FeatureReferenceExpression"),
        ("referent", .obj [("@id", .str "e1")])]

def c7enum (d : JValue) : JValue := .obj [("@id", .str "e1"), ("declaredName", d)]

def c7stRef (d : JValue) : St :=
  ⟨[], [("u", [(.str "r1", c7relFV), (.str "v1", c7valRef), (.str "e1", c7enum d)])]⟩

def c7valEnum (nm : JValue) : JValue :=
  .obj [("@id", .str "v1"), ("@type", .str "EnumerationUsage"), ("name", nm)]

def c7stEnum (nm : JValue) : St :=
  ⟨[], [("u", [(.str "r1", c7relFV), (.str "v1", c7valEnum nm)])]⟩

def c7attrEmpty : JValue :=
  .obj [("@id", .str "attr"), ("ownedRelationship", .arr [])]

def c7relSpec : JValue := .obj [("@id", .str "r1"), ("@type", .str "Specialization")]

def c7stSpec : St := ⟨[], [("u", [(.str "r1", c7relSpec)])]⟩

/-- C7.  Terminal interpretation of a feature value, for every transport
(the scenarios resolve from the warmed cache): (1) a final value element
carrying a literal value field returns that field VERBATIM, whatever
JSON value it is, with no coercion; (2) a FeatureReferenceExpression
returns the declaredName of its resolved referent, verbatim; (3) an
EnumerationUsage returns its own name, verbatim; (4) an attribute usage
owning no relationship at all returns None rather than an error, under
any state; (5) an attribute usage owning only a non-FeatureValue
relationship likewise returns None. -/
theorem feature_value_terminal_interpretation :
    (∀ (v : JValue) (remote : Remote),
      (get_attribute_value_from_usage remote (c7stLit v) "u" c7attr).1 = .ok v) ∧
    (∀ (d : JValue) (remote : Remote),
      (get_attribute_value_from_usage remote (c7stRef d) "u" c7attr).1 = .ok d) ∧
    (∀ (nm : JValue) (remote : Remote),
      (get_attribute_value_from_usage remote (c7stEnum nm) "u" c7attr).1 = .ok nm) ∧
    (∀ (remote : Remote) (st : St),
      get_attribute_value_from_usage remote st "u" c7attrEmpty = (.ok .null, st)) ∧
    (∀ (remote : Remote),
      (get_attribute_value_from_usage remote c7stSpec "u" c7attr).1 = .ok .null) := by
  refine ⟨?_, ?_, ?_, ?_, ?_⟩
  · intro v remote
    rfl
  · intro d remote
    rfl
  · intro nm remote
    rfl
  · intro remote st
    rfl
  · intro remote
    rfl

/-- results[key].append(x): the per-key accumulator dict update of
get_metadatausage_annotatedElement_ids. -/
def annotated_step (results : List (String × List JValue)) (key : String) (x : JValue) :
    List (String × List JValue) :=
  results.map (fun p => if p.1 = key then (p.1, p.2 ++ [x]) else p)

/-- The loop over a non-empty annotatedElement list: each entry with a
truthy @id is appended under the requesting key. -/
def append_annotated (key : String) :
    List (String × List JValue) → List JValue → Except String (List (String × List JValue))
  | results, [] => .ok results
  | results, a :: rest =>
    match pyGet a "@id" with
    | .error e => .error e
    | .ok aid =>
      if truthy aid then append_annotated key (annotated_step results key aid) rest
      else append_annotated key results rest

/-- The loop of get_metadatausage_annotatedElement_ids over the entries
of the requested definition dict, for one MetadataUsage item: on an id
match, the ids of the annotatedElement list are collected (list and
single-dict shapes), or, when that value is falsy (e.g. an empty list),
the own id of the usage. -/
def collect_annotated (item metadata_id : JValue) :
    List (String × JValue) → List (String × List JValue) →
    Except String (List (String × List JValue))
  | [], results => .ok results
  | (key, defid) :: rest, results =>
    if metadata_id = defid then
      match pyGetD item "annotatedElement" (.arr []) with
      | .error e => .error e
      | .ok anns =>
        if truthy anns then
          match anns with
          | .arr xs =>
            (match append_annotated key results xs with
             | .error e => .error e
             | .ok r2 => collect_annotated item metadata_id rest r2)
          | .obj _ =>
            (match pyGet anns "@id" with
             | .error e => .error e
             | .ok aid =>
               collect_annotated item metadata_id rest
                 (if truthy aid then annotated_step results key aid else results))
          | _ => collect_annotated item metadata_id rest results
        else
          match pyGet item "@id" with
          | .error e => .error e
          | .ok iid => collect_annotated item metadata_id rest (annotated_step results key iid)
    else collect_annotated item metadata_id rest results

/-- The outer loop of get_metadatausage_annotatedElement_ids over the
MetadataUsage query hits; the metadata_id of an item whose
metadataDefinition is not a dict is the string Unknown, as in the
source. -/
def metadatausage_items (metadefs : List (String × JValue)) :
    List (String × List JValue) → List JValue → Except String (List (String × List JValue))
  | results, [] => .ok results
  | results, item :: rest =>
    match pyGet item "metadataDefinition" with
    | .error e => .error e
    | .ok metadata =>
      (match collect_annotated item
          (match metadata with
           | .obj fs => objGet fs "@id"
           | _ => .str "Unknown") metadefs results with
       | .error e => .error e
       | .ok r2 => metadatausage_items metadefs r2 rest)

/-- Source: get_metadatausage_annotatedElement_ids.  Queries all
MetadataUsage elements once and collects, for each requested metadata
definition id, the annotated element ids (or the own id of a usage whose
annotatedElement list is empty). -/
def get_metadatausage_annotatedElement_ids (post : PostRemote)
    (server_url project_id commit_id : String) (metadefinition_dict : List (String × JValue)) :
    Except String (List (String × List JValue)) :=
  match pyLen (get_elements_byKind_fromAPI post server_url project_id commit_id
      (.str "MetadataUsage")) with
  | .error e => .error e
  | .ok _ =>
    match pyIterL (get_elements_byKind_fromAPI post server_url project_id commit_id
        (.str "MetadataUsage")) with
    | .error e => .error e
    | .ok items =>
      metadatausage_items metadefinition_dict
        (metadefinition_dict.map (fun p => (p.1, ([] : List JValue)))) items

def c8item1 (uid dd e1 e2 : String) : JValue :=
  .obj [("@id", .str uid), ("metadataDefinition", .obj [("@id", .str dd)]),
        ("annotatedElement", .arr [.obj [("@id", .str e1)], .obj [("@id", .str e2)]])]

def c8item2 (uid dd : String) : JValue :=
  .obj [("@id", .str uid), ("metadataDefinition", .obj [("@id", .str dd)]),
        ("annotatedElement", .arr [])]

/-- C8.  Metadata self-annotation fallback: a MetadataUsage whose
metadataDefinition matches the requested definition id contributes,
under the requesting key, the ids of its annotatedElement list when
that list is non-empty (part one, for non-empty ids), and its OWN id
when that list is empty (part two). -/
theorem metadata_self_annotation_fallback (key dd uid e1 e2 : String)
    (s p c : String) (he1 : e1 ≠ "") (he2 : e2 ≠ "") :
    get_metadatausage_annotatedElement_ids
        (fun _ _ => .ok ⟨200, .arr [c8item1 uid dd e1 e2]⟩) s p c [(key, .str dd)] =
      .ok [(key, [.str e1, .str e2])] ∧
    get_metadatausage_annotatedElement_ids
        (fun _ _ => .ok ⟨200, .arr [c8item2 uid dd]⟩) s p c [(key, .str dd)] =
      .ok [(key, [.str uid])] := by
  constructor
  · simp [get_metadatausage_annotatedElement_ids, get_elements_byKind_fromAPI,
      pyLen, pyIterL, metadatausage_items, collect_annotated, append_annotated,
      annotated_step, pyGet, pyGetD, objGet, findA, c8item1, truthy, he1, he2]
  · simp [get_metadatausage_annotatedElement_ids, get_elements_byKind_fromAPI,
      pyLen, pyIterL, metadatausage_items, collect_annotated, append_annotated,
      annotated_step, pyGet, pyGetD, objGet, findA, c8item2, truthy]

/-- Witness for C8 at concrete key, definition id, usage id and
annotated element ids. -/
theorem metadata_self_annotation_fallback_witness :
    get_metadatausage_annotatedElement_ids
        (fun _ _ => .ok ⟨200, .arr [c8item1 "u0" "D" "e1" "e2"]⟩) "s" "p" "c"
        [("FB", .str "D")] = .ok [("FB", [.str "e1", .str "e2"])] ∧
    get_metadatausage_annotatedElement_ids
        (fun _ _ => .ok ⟨200, .arr [c8item2 "u0" "D"]⟩) "s" "p" "c"
        [("FB", .str "D")] = .ok [("FB", [.str "u0"])] :=
  metadata_self_annotation_fallback "FB" "D" "u0" "e1" "e2" "s" "p" "c"
    (by decide) (by decide)

/-- Source: get_elements_fromAPI.  Batch fetch that swallows per-id
exceptions (continue) and flattens a list-shaped element into the result
(extend), appending everything else, None included, as one item. -/
def get_elements_fromAPI (remote : Remote) (st : St) (query_url : String) :
    List JValue → List JValue × St
  | [] => ([], st)
  | i :: rest =>
    match get_element_fromAPI remote st query_url i with
    | (.error _, st1, _) => get_elements_fromAPI remote st1 query_url rest
    | (.ok r, st1, _) =>
      (match get_elements_fromAPI remote st1 query_url rest with
       | (tail, st2) => ((match r with | .arr xs => xs | v => [v]) ++ tail, st2))

/-- The feature_kind_mapping dict of get_feature. -/
def feature_kind_mapping (feature_kind : String) : Option String :=
  findA [("AttributeUsage", "ownedFeature"), ("PartUsage", "ownedPart"),
         ("ItemUsage", "ownedItem"), ("PortUsage", "ownedPort"),
         ("ReferenceUsage", "ownedReference")] feature_kind

/-- owner.get(feature_kind_mapping.get(feature_kind), []): an unmapped
kind looks up the None key, which a string-keyed dict never holds, so
the default empty list is returned; a non-dict owner raises. -/
def owner_feature_list (owner : JValue) (feature_kind : String) : Except String JValue :=
  match feature_kind_mapping feature_kind with
  | some k => pyGetD owner k (.arr [])
  | none =>
    (match owner with
     | .obj _ => .ok (.arr [])
     | _ => .error "AttributeError")

/-- The id list comprehension of get_feature over the owned feature
references. -/
def collect_ids : List JValue → Except String (List JValue)
  | [] => .ok []
  | p :: rest =>
    match pyIndex p "@id" with
    | .error e => .error e
    | .ok v =>
      (match collect_ids rest with
       | .error e => .error e
       | .ok vs => .ok (v :: vs))

/-- The direct-feature match loop of get_feature: the first fetched
usage of the requested kind and name wins. -/
def find_matching_usage (feature_kind feature_name : String) :
    List JValue → Except String (Option JValue)
  | [] => .ok none
  | usage :: rest =>
    match pyGet usage "@type" with
    | .error e => .error e
    | .ok t =>
      if t = .str feature_kind then
        match pyGet usage "name" with
        | .error e => .error e
        | .ok n =>
          if n = .str feature_name then .ok (some usage)
          else find_matching_usage feature_kind feature_name rest
      else find_matching_usage feature_kind feature_name rest

/-- The direct-feature phase of get_feature: dereference the owned
feature references of the mapped edge role and scan them for a
kind-and-name match. -/
def get_feature_direct (remote : Remote) (st : St) (query_url : String) (owner : JValue)
    (feature_name feature_kind : String) : (Except String (Option JValue)) × St :=
  match owner_feature_list owner feature_kind with
  | .error e => (.error e, st)
  | .ok raw =>
    match pyIterL raw with
    | .error e => (.error e, st)
    | .ok ps =>
      match collect_ids ps with
      | .error e => (.error e, st)
      | .ok ids =>
        match get_elements_fromAPI remote st query_url ids with
        | (usages, st1) =>
          (match find_matching_usage feature_kind feature_name usages with
           | .error e => (.error e, st1)
           | .ok r => (.ok r, st1))

/-- The inherited-feature loop of get_feature. -/
def inherited_loop (remote : Remote) (st : St) (query_url : String)
    (feature_kind feature_name : String) : List JValue → (Except String JValue) × St
  | [] => (.ok .null, st)
  | item :: rest =>
    match pyGet item "@id" with
    | .error e => (.error e, st)
    | .ok iid =>
      match get_element_fromAPI remote st query_url iid with
      | (.error e, st1, _) => (.error e, st1)
      | (.ok f, st1, _) =>
        match pyGet f "@type" with
        | .error e => (.error e, st1)
        | .ok t =>
          if t = .str feature_kind then
            match pyGet f "name" with
            | .error e => (.error e, st1)
            | .ok n =>
              if n = .str feature_name then (.ok f, st1)
              else inherited_loop remote st1 query_url feature_kind feature_name rest
          else inherited_loop remote st1 query_url feature_kind feature_name rest

/-- The inherited-feature fallback phase of get_feature: the source does
len(owner.get('inheritedFeature')) first, so an owner WITHOUT an
inheritedFeature key raises TypeError (len of None) here instead of
returning None. -/
def get_feature_inherited (remote : Remote) (st : St) (query_url : String) (owner : JValue)
    (feature_name feature_kind : String) : (Except String JValue) × St :=
  match pyGet owner "inheritedFeature" with
  | .error e => (.error e, st)
  | .ok inh =>
    match pyLen inh with
    | .error e => (.error e, st)
    | .ok _ =>
      match pyIterL inh with
      | .error e => (.error e, st)
      | .ok items => inherited_loop remote st query_url feature_kind feature_name items

/-- Source: get_feature.  Looks for the named feature of the requested
kind among the owned features of the mapped edge role, then falls back
to the inheritedFeature list. -/
def get_feature (remote : Remote) (st : St) (server_url project_id commit_id : String)
    (owner : JValue) (feature_name feature_kind : String) : (Except String JValue) × St :=
  match pyGet owner "@id" with
  | .error e => (.error e, st)
  | .ok _ =>
    match get_feature_direct remote st (get_commit_url server_url project_id commit_id)
        owner feature_name feature_kind with
    | (.error e, st1) => (.error e, st1)
    | (.ok (some usage), st1) => (.ok usage, st1)
    | (.ok none, st1) =>
      get_feature_inherited remote st1 (get_commit_url server_url project_id commit_id)
        owner feature_name feature_kind

/-- Source: get_feature_value.  Resolves the named feature via
get_feature and extracts its value; a falsy feature returns None. -/
def get_feature_value (remote : Remote) (st : St) (server_url project_id commit_id : String)
    (owner : JValue) (feature_name feature_kind : String) : (Except String JValue) × St :=
  match pyGet owner "@id" with
  | .error e => (.error e, st)
  | .ok _ =>
    match get_feature remote st server_url project_id commit_id owner feature_name
        feature_kind with
    | (.error e, st1) => (.error e, st1)
    | (.ok f, st1) =>
      if truthy f then
        get_attribute_value_from_usage remote st1
          (get_commit_url server_url project_id commit_id) f
      else (.ok .null, st1)

/-- C10.  For every owner record without an inheritedFeature key whose
direct-feature scan finds no match, get_feature raises TypeError (len
applied to the None of owner.get) instead of returning the absence
marker None, and get_feature_value propagates that TypeError. -/
theorem get_feature_missing_inherited_raises (remote : Remote) (st st' : St)
    (s p c : String) (fs : List (String × JValue)) (fname fkind : String)
    (hnk : hasKeyJ (.obj fs) "inheritedFeature" = false)
    (hd : get_feature_direct remote st (get_commit_url s p c) (.obj fs) fname fkind =
      (.ok none, st')) :
    get_feature remote st s p c (.obj fs) fname fkind = (.error "TypeError", st') ∧
    get_feature_value remote st s p c (.obj fs) fname fkind = (.error "TypeError", st') := by
  have hfind : findA fs "inheritedFeature" = none := by
    simpa [hasKeyJ, Option.isSome_iff_exists] using hnk
  have hgf : get_feature remote st s p c (.obj fs) fname fkind = (.error "TypeError", st') := by
    simp [get_feature, hd, get_feature_inherited, pyGet, objGet, hfind, pyLen]
  exact ⟨hgf, by simp [get_feature_value, hgf, pyGet]⟩

def c10owner : JValue := .obj [("@id", .str "o1"), ("ownedFeature", .arr [])]

def c10remote : Remote := fun _ => .error "ConnectionError"

/-- Witness for C10 at a concrete owner with no matching direct feature
and no inheritedFeature key. -/
theorem get_feature_missing_inherited_raises_witness :
    get_feature c10remote ⟨[], []⟩ "s" "p" "c" c10owner "risk" "AttributeUsage" =
      (.error "TypeError", ⟨[], []⟩) ∧
    get_feature_value c10remote ⟨[], []⟩ "s" "p" "c" c10owner "risk" "AttributeUsage" =
      (.error "TypeError", ⟨[], []⟩) :=
  get_feature_missing_inherited_raises c10remote ⟨[], []⟩ ⟨[], []⟩ "s" "p" "c"
    [("@id", .str "o1"), ("ownedFeature", .arr [])] "risk" "AttributeUsage"
    (by decide) (by rfl)
